import Mathlib

/-!
# WatchDucker core: shallow embedding and verification

A shallow embedding of the update-checking / container-replacement core of
the watchducker repository (Go), with theorems settling the frozen claims.

Conventions of the embedding:
* Go slices of strings become `List String`; where the nil/non-nil
  distinction of a Go slice is observable (`Entrypoint`, `Cmd`), they become
  `Option (List String)` with `none` for the Go `nil` slice.
* Go maps become association lists (`List (String × String)`) or key lists
  (`List String`); Go guarantees their keys are unique, which appears as a
  `Nodup` hypothesis where a proof needs it.  Go map iteration order is
  unspecified; the lists fix one linearization, and every proved statement
  about them is order-independent.
* Container-engine calls (inspect, pull, create, ...) are blocking I/O in
  the source; they are abstracted as oracle functions returning
  `Except String _`, and the stateful engine is an explicit
  `DockerState`/event-trace pair threaded through the self-update and
  operator state machines.
* Timestamps and durations (`CheckedAt`, `Summary.Duration`) are dropped:
  no claim mentions them.
* Error strings from the source are Chinese; they are shortened to English
  equivalents here.  Only their non-emptiness is ever relevant.
-/

/-- `types.ContainerInfo` (fields used by the core): short id, name,
image reference, labels, lifecycle state. -/
structure ContainerInfo where
  ID : String
  Name : String
  Image : String
  Labels : List (String × String)
  State : String
deriving DecidableEq

/-- `types.ImageCheckResult`: one per unique image per batch
(timestamp dropped). `Error = ""` encodes the Go empty-string sentinel. -/
structure ImageCheckResult where
  Name : String
  LocalHash : String
  RemoteHash : String
  IsUpdated : Bool
  Error : String
deriving DecidableEq

/-- The `Summary` part of `types.BatchCheckResult` (duration dropped). -/
structure CheckSummary where
  TotalContainers : Nat
  TotalImages : Nat
  Updated : Nat
  UpToDate : Nat
  Failed : Nat
deriving DecidableEq

/-- `types.BatchCheckResult`. -/
structure BatchCheckResult where
  Containers : List ContainerInfo
  Images : List ImageCheckResult
  Summary : CheckSummary
deriving DecidableEq

/-- `container.HealthConfig` as used by `GetCreateConfig`: durations are
`int64` nanoseconds in Go, modelled as `Int`. -/
structure HealthConfig where
  Test : List String
  Retries : Int
  Interval : Int
  Timeout : Int
  StartPeriod : Int
deriving DecidableEq

/-- `container.Config`, the fields touched by the core.  `Entrypoint` and
`Cmd` keep Go nil (`none`) apart from an empty slice (`some []`); `Labels`
is the label map as an association list; `Volumes` and `ExposedPorts` are
the key sets of the corresponding Go `map[string]struct{}`. -/
structure ContainerConfig where
  Hostname : String
  User : String
  WorkingDir : String
  Image : String
  Entrypoint : Option (List String)
  Cmd : Option (List String)
  Env : List String
  Labels : List (String × String)
  Volumes : List String
  ExposedPorts : List String
  Healthcheck : Option HealthConfig
deriving DecidableEq

/-- `container.HostConfig`, the fields the core reads: the network mode
string and the key set of `PortBindings`. -/
structure HostConfig where
  NetworkMode : String
  PortBindings : List String
deriving DecidableEq

/-- `dockerTypes.ContainerJSON`, the parts the core reads: id, the
container config, the host config, and the names of the networks the
container is attached to (`NetworkSettings.Networks` keys). -/
structure ContainerJSON where
  ID : String
  Config : ContainerConfig
  HostConfig : HostConfig
  Networks : List String
deriving DecidableEq

/-- Go `hostConfig.NetworkMode.IsContainer()`: the mode string starts with
the `container:` prefix. -/
def networkModeIsContainer (mode : String) : Bool :=
  mode.startsWith "container:"

/-- Go `hostConfig.NetworkMode.IsHost()`: the mode string is `host`. -/
def networkModeIsHost (mode : String) : Bool :=
  mode == "host"

/-- A Go string slice viewed through `len`/indexing: `nil` behaves as the
empty slice. -/
def goSlice (s : Option (List String)) : List String :=
  s.getD []

/-- `utils.SliceEqual` (notify.go:533): equal length and pointwise equal
content. -/
def SliceEqual : List String → List String → Bool
  | [], [] => true
  | x :: xs, y :: ys => x == y && SliceEqual xs ys
  | _, _ => false

/-- `utils.SliceSubtract` (notify.go:548): keep the elements of `a1` that
do not occur in `a2` (starting from a fresh empty slice). -/
def SliceSubtract (a1 a2 : List String) : List String :=
  a1.foldl (fun a e1 => if a2.contains e1 then a else a ++ [e1]) []

/-- First binding of key `k` in an association list (a Go map lookup; Go
map keys are unique). -/
def lookupStr (m : List (String × String)) (k : String) : Option String :=
  (m.find? (fun kv => kv.1 == k)).map (fun kv => kv.2)

/-- `utils.StringMapSubtract` (notify.go:570): keep the entries of `m1`
whose key is absent from `m2` or bound to a different value there. -/
def StringMapSubtract (m1 m2 : List (String × String)) : List (String × String) :=
  m1.foldl
    (fun m kv =>
      match lookupStr m2 kv.1 with
      | some v2 => if v2 ≠ kv.2 then m ++ [kv] else m
      | none => m ++ [kv])
    []

/-- `utils.StructMapSubtract` (notify.go:587): keep the keys of `m1` absent
from `m2`. -/
def StructMapSubtract (m1 m2 : List String) : List String :=
  m1.foldl (fun m k1 => if m2.contains k1 then m else m ++ [k1]) []

/-! ## ConfigReconciler: `ContainerService.GetCreateConfig` (part_000:251)

The Go function mutates `config` statement by statement; each statement
becomes one stage function, composed in source order. -/

/-- part_000:256: clear the working directory if equal to the image
default. -/
def applyWorkingDirRule (imageConfig config : ContainerConfig) : ContainerConfig :=
  if config.WorkingDir = imageConfig.WorkingDir then { config with WorkingDir := "" } else config

/-- part_000:260: clear the user if equal to the image default. -/
def applyUserRule (imageConfig config : ContainerConfig) : ContainerConfig :=
  if config.User = imageConfig.User then { config with User := "" } else config

/-- part_000:264: clear the hostname when the network mode shares another
container's namespace. -/
def applyHostnameRule (hostConfig : HostConfig) (config : ContainerConfig) : ContainerConfig :=
  if networkModeIsContainer hostConfig.NetworkMode then { config with Hostname := "" } else config

/-- part_000:268-273: clear the entrypoint only if identical to the image
default; clear the command only then, and only if it also matches the image
default. -/
def applyEntrypointCmdRule (imageConfig config : ContainerConfig) : ContainerConfig :=
  if SliceEqual (goSlice config.Entrypoint) (goSlice imageConfig.Entrypoint) then
    let cleared := { config with Entrypoint := none }
    if SliceEqual (goSlice cleared.Cmd) (goSlice imageConfig.Cmd) then
      { cleared with Cmd := none }
    else cleared
  else config

/-- part_000:276-296: clear each health-check field independently when
equal to the image default for that field (only when both container and
image carry a health check). -/
def applyHealthcheckRule (imageConfig config : ContainerConfig) : ContainerConfig :=
  match config.Healthcheck, imageConfig.Healthcheck with
  | some hc, some ihc =>
    let hc := if SliceEqual hc.Test ihc.Test then { hc with Test := [] } else hc
    let hc := if hc.Retries = ihc.Retries then { hc with Retries := 0 } else hc
    let hc := if hc.Interval = ihc.Interval then { hc with Interval := 0 } else hc
    let hc := if hc.Timeout = ihc.Timeout then { hc with Timeout := 0 } else hc
    let hc := if hc.StartPeriod = ihc.StartPeriod then { hc with StartPeriod := 0 } else hc
    { config with Healthcheck := some hc }
  | _, _ => config

/-- part_000:298: environment subtraction. -/
def applyEnvRule (imageConfig config : ContainerConfig) : ContainerConfig :=
  { config with Env := SliceSubtract config.Env imageConfig.Env }

/-- part_000:300: label-map subtraction. -/
def applyLabelsRule (imageConfig config : ContainerConfig) : ContainerConfig :=
  { config with Labels := StringMapSubtract config.Labels imageConfig.Labels }

/-- part_000:302: declared-volume subtraction. -/
def applyVolumesRule (imageConfig config : ContainerConfig) : ContainerConfig :=
  { config with Volumes := StructMapSubtract config.Volumes imageConfig.Volumes }

/-- part_000:304-312: drop the ports the image exposes by default, then
re-add every host-bound port. -/
def applyExposedPortsRule (imageConfig : ContainerConfig) (hostConfig : HostConfig)
    (config : ContainerConfig) : ContainerConfig :=
  let exposed := config.ExposedPorts.filter (fun k => !(imageConfig.ExposedPorts.contains k))
  let exposed := hostConfig.PortBindings.foldl
    (fun acc p => if acc.contains p then acc else acc ++ [p]) exposed
  { config with ExposedPorts := exposed }

/-- `ContainerService.GetCreateConfig` (part_000:251-316): reconcile a
container's live config against the image defaults, field by field, then
point it at the new image. -/
def GetCreateConfig (containerJSON : ContainerJSON) (imageConfig : ContainerConfig)
    (imageName : String) : ContainerConfig :=
  let config := containerJSON.Config
  let hostConfig := containerJSON.HostConfig
  let config := applyWorkingDirRule imageConfig config
  let config := applyUserRule imageConfig config
  let config := applyHostnameRule hostConfig config
  let config := applyEntrypointCmdRule imageConfig config
  let config := applyHealthcheckRule imageConfig config
  let config := applyEnvRule imageConfig config
  let config := applyLabelsRule imageConfig config
  let config := applyVolumesRule imageConfig config
  let config := applyExposedPortsRule imageConfig hostConfig config
  { config with Image := imageName }

/-! ## ReferenceResolver and UpdateDetector

Engine calls are abstracted as oracles:
* `inspect` stands for `cli.ImageInspectWithRaw`,
* `getLocalHash` for `ImageService.GetLocalHash` (image list lookup),
* `getRemoteHash` for `ImageService.GetRemoteHash` (pull, then lookup).

The Go `checkImages` runs one goroutine per unique image and appends
results in arrival order; the embedding fixes the issue order as the
linearization.  Every claim proved about it (summary counts, lengths,
membership) is invariant under permuting the per-image results. -/

/-- What `cli.ImageInspectWithRaw` returns, restricted to the fields
`NormalizeReference` reads. -/
structure ImageInspectData where
  RepoTags : List String
  RepoDigests : List String
deriving DecidableEq

/-- `ImageService.NormalizeReference` (image.go:42-68): a digest-only or
anonymous reference is resolved through a local inspect to its first
non-anonymous tag, else its first digest; ordinary references pass through
unchanged. -/
def NormalizeReference (inspect : String → Except String ImageInspectData)
    (imageName : String) : Except String String :=
  if imageName = "" then Except.error "empty image name"
  else if imageName.startsWith "sha256:" || imageName = "<none>:<none>" then
    match inspect imageName with
    | Except.error e => Except.error ("resolve reference by image id failed: " ++ e)
    | Except.ok info =>
      match info.RepoTags.find? (fun tag => !(tag == "") && !(tag == "<none>:<none>")) with
      | some tag => Except.ok tag
      | none =>
        match info.RepoDigests with
        | d :: _ => Except.ok d
        | [] => Except.error ("image " ++ imageName ++ " has no tag or digest")
  else Except.ok imageName

/-- `ImageService.CheckUpdate` (image.go:117-143): read the local hash,
pull and read the post-pull hash, set `IsUpdated` to their disequality; on
either failure record the error message and return it (the result struct is
returned in both cases, mirroring the non-nil result the goroutine always
forwards). -/
def CheckUpdate (getLocalHash getRemoteHash : String → Except String String)
    (imageName : String) : ImageCheckResult × Option String :=
  let result : ImageCheckResult :=
    { Name := imageName, LocalHash := "", RemoteHash := "", IsUpdated := false, Error := "" }
  match getLocalHash imageName with
  | Except.error e =>
    ({ result with Error := "get local image info failed: " ++ e }, some e)
  | Except.ok localHash =>
    match getRemoteHash imageName with
    | Except.error e =>
      ({ result with LocalHash := localHash,
                     Error := "get remote image info failed: " ++ e }, some e)
    | Except.ok remoteHash =>
      ({ result with LocalHash := localHash, RemoteHash := remoteHash,
                     IsUpdated := localHash != remoteHash }, none)

/-- Loop body of `Checker.extractImageReferences` (part_002:187-206):
`imageSet` is the Go dedup map (kept as a list, mirroring `images` exactly)
and `skipped` collects the error-only results of unresolvable references. -/
def extractGo (inspect : String → Except String ImageInspectData) :
    List ContainerInfo → List String → List String → List ImageCheckResult →
    List String × List ImageCheckResult
  | [], _, images, skipped => (images, skipped)
  | c :: rest, imageSet, images, skipped =>
    match NormalizeReference inspect c.Image with
    | Except.error e =>
      extractGo inspect rest imageSet images
        (skipped ++ [{ Name := c.Image, LocalHash := "", RemoteHash := "", IsUpdated := false,
                       Error := "container " ++ c.Name ++ " image " ++ c.Image ++
                         " cannot be resolved: " ++ e }])
    | Except.ok normalized =>
      if imageSet.contains normalized then
        extractGo inspect rest imageSet images skipped
      else
        extractGo inspect rest (imageSet ++ [normalized]) (images ++ [normalized]) skipped

/-- `Checker.extractImageReferences` (part_002:182-209). -/
def extractImageReferences (inspect : String → Except String ImageInspectData)
    (containers : List ContainerInfo) : List String × List ImageCheckResult :=
  extractGo inspect containers [] [] []

/-- The unique resolved references for which `checkImages` launches one
image-check task (and hence at most one pull) each: the first component of
`extractImageReferences`. -/
def pullTasks (inspect : String → Except String ImageInspectData)
    (containers : List ContainerInfo) : List String :=
  (extractImageReferences inspect containers).1

/-- Summary loop of `checkImages` (part_002:159-167): one of
updated/up-to-date/failed is incremented per `ImageCheckResult`, failed
taking precedence when an error is recorded. -/
def tallyStep (acc : Nat × Nat × Nat) (info : ImageCheckResult) : Nat × Nat × Nat :=
  if info.Error ≠ "" then (acc.1, acc.2.1, acc.2.2 + 1)
  else if info.IsUpdated then (acc.1 + 1, acc.2.1, acc.2.2)
  else (acc.1, acc.2.1 + 1, acc.2.2)

/-- The (updated, up-to-date, failed) counts over a result list. -/
def tallySummary (images : List ImageCheckResult) : Nat × Nat × Nat :=
  images.foldl tallyStep (0, 0, 0)

/-- `Checker.checkImages` (part_002:84-180): skip-or-dedup the references,
run one `CheckUpdate` task per unique image, aggregate skipped plus
per-image results, tally the summary, and return the first error (if any)
alongside the fully populated result. -/
def checkImages (inspect : String → Except String ImageInspectData)
    (getLocalHash getRemoteHash : String → Except String String)
    (containers : List ContainerInfo) : BatchCheckResult × Option String :=
  if containers.length = 0 then
    ({ Containers := containers, Images := [],
       Summary := { TotalContainers := 0, TotalImages := 0,
                    Updated := 0, UpToDate := 0, Failed := 0 } }, none)
  else
    let extracted := extractImageReferences inspect containers
    let imageNames := extracted.1
    let skipped := extracted.2
    let checks := imageNames.map (CheckUpdate getLocalHash getRemoteHash)
    let images := skipped ++ checks.map Prod.fst
    let errors := checks.filterMap Prod.snd
    let tally := tallySummary images
    ({ Containers := containers, Images := images,
       Summary := { TotalContainers := containers.length,
                    TotalImages := imageNames.length + skipped.length,
                    Updated := tally.1, UpToDate := tally.2.1, Failed := tally.2.2 } },
     errors.head?)

/-- `Operator.createNewContainer`'s container config (operator.go:47-52):
the ordinary replacement path copies only image, command, environment and
labels; every other field is the Go zero value. -/
def operatorCreateConfig (containerConfig : ContainerJSON) (newImage : String) : ContainerConfig :=
  { Hostname := ""
    User := ""
    WorkingDir := ""
    Image := newImage
    Entrypoint := none
    Cmd := containerConfig.Config.Cmd
    Env := containerConfig.Config.Env
    Labels := containerConfig.Config.Labels
    Volumes := []
    ExposedPorts := []
    Healthcheck := none }

/-! ## Engine state machine for replacement and self-replacement

The container engine is modelled as the list of existing containers plus a
trace of issued calls.  An oracle decides which calls succeed, standing for
the independently fallible engine; every call is appended to the trace
whether it succeeds or not (the call was issued either way).  Network
endpoints are represented by their network names: the endpoint settings
carried alongside them in Go do not influence any claimed property. -/

/-- A container as the engine sees it: id, current name, running flag. -/
structure Ctr where
  id : String
  name : String
  running : Bool
deriving DecidableEq

/-- The containers currently known to the engine. -/
abbrev DockerState := List Ctr

/-- One issued engine call. -/
inductive Ev where
  | inspect (cid : String)
  | rename (cid newName : String)
  | create (name : String) (cfg : ContainerConfig) (networks : List String)
  | start (cid : String)
  | stop (cid : String)
  | remove (cid : String)
  | netDisconnect (net cid : String)
  | netConnect (net cid : String)
deriving DecidableEq

/-- Which engine calls succeed during a self-update run, and the id the
engine assigns to the created container. -/
structure SelfOracle where
  renameOk : String → String → Bool
  createOk : Bool
  newId : String
  startOk : Bool
  stopOk : String → Bool
  removeOk : String → Bool
  disconnectOk : String → Bool
  connectOk : String → Bool

/-- `ContainerService.RenameContainer` (part_000:154). -/
def doRename (o : SelfOracle) (st : DockerState) (tr : List Ev) (cid newName : String) :
    DockerState × List Ev × Except String Unit :=
  if o.renameOk cid newName then
    (st.map (fun c => if c.id = cid then { c with name := newName } else c),
     tr ++ [Ev.rename cid newName], Except.ok ())
  else (st, tr ++ [Ev.rename cid newName], Except.error "rename container failed")

/-- `ContainerService.CreateContainer` (part_000:184): on success a new,
not-yet-running container with the engine-assigned id joins the state. -/
def doCreate (o : SelfOracle) (st : DockerState) (tr : List Ev)
    (name : String) (cfg : ContainerConfig) (networks : List String) :
    DockerState × List Ev × Except String String :=
  if o.createOk then
    ({ id := o.newId, name := name, running := false } :: st,
     tr ++ [Ev.create name cfg networks], Except.ok o.newId)
  else (st, tr ++ [Ev.create name cfg networks], Except.error "create container failed")

/-- `ContainerService.StartContainer` (part_000:169). -/
def doStart (o : SelfOracle) (st : DockerState) (tr : List Ev) (cid : String) :
    DockerState × List Ev × Except String Unit :=
  if o.startOk then
    (st.map (fun c => if c.id = cid then { c with running := true } else c),
     tr ++ [Ev.start cid], Except.ok ())
  else (st, tr ++ [Ev.start cid], Except.error "start container failed")

/-- `ContainerService.StopContainer` (part_000:114). -/
def doStop (o : SelfOracle) (st : DockerState) (tr : List Ev) (cid : String) :
    DockerState × List Ev × Except String Unit :=
  if o.stopOk cid then
    (st.map (fun c => if c.id = cid then { c with running := false } else c),
     tr ++ [Ev.stop cid], Except.ok ())
  else (st, tr ++ [Ev.stop cid], Except.error "stop container failed")

/-- `ContainerService.RemoveContainer` (part_000:135). -/
def doRemove (o : SelfOracle) (st : DockerState) (tr : List Ev) (cid : String) :
    DockerState × List Ev × Except String Unit :=
  if o.removeOk cid then
    (st.filter (fun c => c.id ≠ cid), tr ++ [Ev.remove cid], Except.ok ())
  else (st, tr ++ [Ev.remove cid], Except.error "remove container failed")

/-- `ContainerService.NetworkDisconnect` (part_000:354). -/
def doDisconnect (o : SelfOracle) (st : DockerState) (tr : List Ev) (net cid : String) :
    DockerState × List Ev × Except String Unit :=
  if o.disconnectOk net then (st, tr ++ [Ev.netDisconnect net cid], Except.ok ())
  else (st, tr ++ [Ev.netDisconnect net cid], Except.error "network disconnect failed")

/-- `ContainerService.NetworkConnect` (part_000:365). -/
def doConnect (o : SelfOracle) (st : DockerState) (tr : List Ev) (net cid : String) :
    DockerState × List Ev × Except String Unit :=
  if o.connectOk net then (st, tr ++ [Ev.netConnect net cid], Except.ok ())
  else (st, tr ++ [Ev.netConnect net cid], Except.error "network connect failed")

/-- The disconnect loop of `SelfUpdater.createNewContainer`
(self.go:182-187): disconnect each listed network, returning on the first
failure. -/
def disconnectAll (o : SelfOracle) (st : DockerState) (tr : List Ev) :
    List String → String → DockerState × List Ev × Except String Unit
  | [], _ => (st, tr, Except.ok ())
  | n :: rest, cid =>
    let step := doDisconnect o st tr n cid
    match step.2.2 with
    | Except.error e => (step.1, step.2.1, Except.error e)
    | Except.ok _ => disconnectAll o step.1 step.2.1 rest cid

/-- The reconnect loop of `SelfUpdater.createNewContainer`
(self.go:189-194): connect each originally-required network, returning on
the first failure. -/
def connectAll (o : SelfOracle) (st : DockerState) (tr : List Ev) :
    List String → String → DockerState × List Ev × Except String Unit
  | [], _ => (st, tr, Except.ok ())
  | n :: rest, cid =>
    let step := doConnect o st tr n cid
    match step.2.2 with
    | Except.error e => (step.1, step.2.1, Except.error e)
    | Except.ok _ => connectAll o step.1 step.2.1 rest cid

/-- `SelfUpdater.createNewContainer` (self.go:158-198): build the
reconciled config via `GetCreateConfig`, create the new container attached
to at most one of its networks (`simpleNetworkConfig` keeps one arbitrary
endpoint of the network map; here the first), then — unless the container
uses host networking — disconnect that network and reconnect every
originally-required network.  A failure after creation propagates without
removing the created container. -/
def selfCreateNewContainer (o : SelfOracle) (st : DockerState) (tr : List Ev)
    (containerJSON : ContainerJSON) (imageConfig : ContainerConfig)
    (newImage : String) (containerName : String) :
    DockerState × List Ev × Except String String :=
  let config := GetCreateConfig containerJSON imageConfig newImage
  let networks := containerJSON.Networks
  let simpleNetworks := networks.take 1
  let created := doCreate o st tr containerName config simpleNetworks
  match created.2.2 with
  | Except.error e => (created.1, created.2.1, Except.error e)
  | Except.ok newContainerID =>
    if networkModeIsHost containerJSON.HostConfig.NetworkMode then
      (created.1, created.2.1, Except.ok newContainerID)
    else
      let disc := disconnectAll o created.1 created.2.1 simpleNetworks newContainerID
      match disc.2.2 with
      | Except.error e => (disc.1, disc.2.1, Except.error e)
      | Except.ok _ =>
        let conn := connectAll o disc.1 disc.2.1 networks newContainerID
        match conn.2.2 with
        | Except.error e => (conn.1, conn.2.1, Except.error e)
        | Except.ok _ => (conn.1, conn.2.1, Except.ok newContainerID)

/-- `SelfUpdater.selfUpdateContainer` (self.go:110-155): rename the running
old container out of the way, create and start the replacement under the
original name, then stop and remove the old container — rollback renames
(and, after a failed start, the removal of the failed replacement) have
their own errors ignored, and failures of the final stop/remove are logged
only. -/
def selfUpdateContainer (o : SelfOracle) (st : DockerState) (info : ContainerInfo)
    (containerJSON : ContainerJSON) (imageConfig : ContainerConfig)
    (newImage : String) (randomSuffix : String) :
    DockerState × List Ev × Except String Unit :=
  let oldContainerNewName := info.Name ++ "_" ++ randomSuffix
  let renamed := doRename o st [] info.ID oldContainerNewName
  match renamed.2.2 with
  | Except.error e => (renamed.1, renamed.2.1, Except.error ("rename old container failed: " ++ e))
  | Except.ok _ =>
    let created := selfCreateNewContainer o renamed.1 renamed.2.1 containerJSON imageConfig
      newImage info.Name
    match created.2.2 with
    | Except.error e =>
      let rolledBack := doRename o created.1 created.2.1 info.ID info.Name
      (rolledBack.1, rolledBack.2.1, Except.error ("create new container failed: " ++ e))
    | Except.ok newContainerID =>
      let started := doStart o created.1 created.2.1 newContainerID
      match started.2.2 with
      | Except.error e =>
        let rolledBack := doRename o started.1 started.2.1 info.ID info.Name
        let removed := doRemove o rolledBack.1 rolledBack.2.1 newContainerID
        (removed.1, removed.2.1, Except.error ("start new container failed: " ++ e))
      | Except.ok _ =>
        let stopped := doStop o started.1 started.2.1 info.ID
        let removed := doRemove o stopped.1 stopped.2.1 info.ID
        (removed.1, removed.2.1, Except.ok ())

/-! ## Ordinary batch replacement: `Operator` (operator.go) -/

/-- Which engine calls succeed during an ordinary batch update. -/
structure OperOracle where
  inspect : String → Except String ContainerJSON
  stopOk : String → Bool
  removeOk : String → Bool
  createRes : String → Except String String
  startOk : String → Bool

/-- `Operator.updateContainer` (operator.go:78-111): inspect, stop (30s
timeout), force-remove, create from the hand-picked config of
`operatorCreateConfig`, start; the first failure aborts this container's
sequence. -/
def operUpdateContainer (o : OperOracle) (c : ContainerInfo) (newImage : String) :
    List Ev × Except String Unit :=
  match o.inspect c.ID with
  | Except.error e => ([Ev.inspect c.ID], Except.error ("get container config failed: " ++ e))
  | Except.ok containerConfig =>
    if !(o.stopOk c.ID) then
      ([Ev.inspect c.ID, Ev.stop c.ID], Except.error "stop container failed")
    else if !(o.removeOk c.ID) then
      ([Ev.inspect c.ID, Ev.stop c.ID, Ev.remove c.ID], Except.error "remove container failed")
    else
      let cfg := operatorCreateConfig containerConfig newImage
      match o.createRes c.Name with
      | Except.error e =>
        ([Ev.inspect c.ID, Ev.stop c.ID, Ev.remove c.ID,
          Ev.create c.Name cfg containerConfig.Networks],
         Except.error ("create new container failed: " ++ e))
      | Except.ok newContainerID =>
        if o.startOk newContainerID then
          ([Ev.inspect c.ID, Ev.stop c.ID, Ev.remove c.ID,
            Ev.create c.Name cfg containerConfig.Networks, Ev.start newContainerID],
           Except.ok ())
        else
          ([Ev.inspect c.ID, Ev.stop c.ID, Ev.remove c.ID,
            Ev.create c.Name cfg containerConfig.Networks, Ev.start newContainerID],
           Except.error "start new container failed")

/-- Loop of `Operator.updateContainers` (operator.go:114-138): containers
whose image has no confirmed update are skipped; per-container errors are
collected and the batch continues. -/
def operUpdateLoop (o : OperOracle) (imageUpdates : List (String × String)) :
    List ContainerInfo → List Ev → List String → List Ev × List String
  | [], tr, errs => (tr, errs)
  | c :: rest, tr, errs =>
    match lookupStr imageUpdates c.Image with
    | none => operUpdateLoop o imageUpdates rest tr errs
    | some newImage =>
      let step := operUpdateContainer o c newImage
      match step.2 with
      | Except.ok _ => operUpdateLoop o imageUpdates rest (tr ++ step.1) errs
      | Except.error e =>
        operUpdateLoop o imageUpdates rest (tr ++ step.1)
          (errs ++ ["update container " ++ c.Name ++ " failed: " ++ e])

/-- `Operator.updateContainers` (operator.go:114-138). -/
def operUpdateContainers (o : OperOracle) (containers : List ContainerInfo)
    (imageUpdates : List (String × String)) : List Ev × Except String Unit :=
  let run := operUpdateLoop o imageUpdates containers [] []
  if run.2.length > 0 then (run.1, Except.error "batch update encountered errors")
  else (run.1, Except.ok ())

/-- `Operator.UpdateContainersByBatchCheckResult` (operator.go:141-176):
nothing to update means an immediate success with no engine call; otherwise
build the update mapping from the confirmed-updated images and run the
batch over the containers using them. -/
def UpdateContainersByBatchCheckResult (o : OperOracle) (result : BatchCheckResult) :
    List Ev × Except String Unit :=
  if result.Summary.Updated = 0 then ([], Except.ok ())
  else
    let imageUpdates := result.Images.filterMap
      (fun ir => if ir.IsUpdated && ir.Error == "" then some (ir.Name, ir.Name) else none)
    let containersToUpdate := result.Containers.filter
      (fun c => (lookupStr imageUpdates c.Image).isSome)
    if containersToUpdate.length = 0 then ([], Except.ok ())
    else operUpdateContainers o containersToUpdate imageUpdates

/-! ## Concrete exhibits used by witnesses and counterexamples -/

/-- Image default config of the running example. -/
def wdImgCfg : ContainerConfig :=
  { Hostname := "", User := "", WorkingDir := "", Image := "",
    Entrypoint := none, Cmd := some ["watchducker"],
    Env := ["PATH=/usr/bin"], Labels := [("maintainer", "naomi")],
    Volumes := [], ExposedPorts := [], Healthcheck := none }

/-- Live container config of the running example: it pins a working
directory and an extra environment entry beyond the image defaults. -/
def wdContainerCfg : ContainerConfig :=
  { Hostname := "wd", User := "", WorkingDir := "/data", Image := "watchducker:latest",
    Entrypoint := none, Cmd := some ["watchducker"],
    Env := ["PATH=/usr/bin", "EXTRA=1"], Labels := [("maintainer", "naomi")],
    Volumes := [], ExposedPorts := [], Healthcheck := none }

/-- Inspect output of the running example's container. -/
def wdCJ : ContainerJSON :=
  { ID := "oldid", Config := wdContainerCfg,
    HostConfig := { NetworkMode := "bridge", PortBindings := [] },
    Networks := ["bridge"] }

/-- Discovery record of the running example's container. -/
def wdInfo : ContainerInfo :=
  { ID := "oldid", Name := "wd", Image := "watchducker:latest", Labels := [], State := "running" }

/-- Engine state holding just the running example container. -/
def wdState : DockerState := [{ id := "oldid", name := "wd", running := true }]

/-- A self-update run in which every engine call succeeds. -/
def oracleAllOk : SelfOracle :=
  { renameOk := fun _ _ => true, createOk := true, newId := "newid", startOk := true,
    stopOk := fun _ => true, removeOk := fun _ => true,
    disconnectOk := fun _ => true, connectOk := fun _ => true }

/-- A run in which the network disconnect step fails. -/
def oracleDiscFail : SelfOracle := { oracleAllOk with disconnectOk := fun _ => false }

/-- A run in which the network reconnect step fails. -/
def oracleConnFail : SelfOracle := { oracleAllOk with connectOk := fun _ => false }

/-- A run in which container creation fails. -/
def oracleCreateFail : SelfOracle := { oracleAllOk with createOk := false }

/-- A run in which only stopping the old container fails. -/
def oracleStopFail : SelfOracle := { oracleAllOk with stopOk := fun _ => false }

/-- A run in which only removing the old container fails. -/
def oracleRemoveFail : SelfOracle := { oracleAllOk with removeOk := fun _ => false }

/-- An operator-side engine that would fail every call (never reached when
there is nothing to update). -/
def operOracleDown : OperOracle :=
  { inspect := fun _ => Except.error "engine down", stopOk := fun _ => false,
    removeOk := fun _ => false, createRes := fun _ => Except.error "engine down",
    startOk := fun _ => false }

/-- A batch result whose summary reports nothing updated. -/
def noUpdateBatch : BatchCheckResult :=
  { Containers := [wdInfo],
    Images := [{ Name := "watchducker:latest", LocalHash := "sha256:aaa",
                 RemoteHash := "sha256:aaa", IsUpdated := false, Error := "" }],
    Summary := { TotalContainers := 1, TotalImages := 1, Updated := 0, UpToDate := 1, Failed := 0 } }

/-- Image defaults for the reconciliation round-trip witness. -/
def rtImgCfg : ContainerConfig :=
  { Hostname := "", User := "u", WorkingDir := "/w", Image := "",
    Entrypoint := some ["/bin/app"], Cmd := some ["run"],
    Env := ["A=1"], Labels := [("k", "v")], Volumes := ["/vol"],
    ExposedPorts := [], Healthcheck := none }

/-- A container identical to `rtImgCfg` in every overridable field. -/
def rtCJ : ContainerJSON :=
  { ID := "cid1",
    Config := { rtImgCfg with Hostname := "rt", Image := "app:1" },
    HostConfig := { NetworkMode := "bridge", PortBindings := [] },
    Networks := ["bridge"] }

/-! ## Helper lemmas -/

theorem string_append_ne_empty (s t : String) (h : s.length ≠ 0) : s ++ t ≠ "" := by
  intro he
  apply h
  have hl := congrArg String.length he
  rw [String.length_append] at hl
  have h0 : ("" : String).length = 0 := rfl
  rw [h0] at hl
  omega

theorem SliceEqual_refl (l : List String) : SliceEqual l l = true := by
  induction l with
  | nil => rfl
  | cons x xs ih => simp [SliceEqual, ih]

theorem foldl_subtract_keep (a2 : List String) :
    ∀ (a1 : List String) (acc : List String), (∀ x ∈ a1, a2.contains x = true) →
      a1.foldl (fun a e1 => if a2.contains e1 then a else a ++ [e1]) acc = acc := by
  intro a1
  induction a1 with
  | nil => intro acc _; rfl
  | cons x xs ih =>
    intro acc h
    have hx : a2.contains x = true := h x (List.mem_cons_self x xs)
    simp only [List.foldl_cons, hx, if_pos]
    exact ih acc fun y hy => h y (List.mem_cons_of_mem _ hy)

theorem SliceSubtract_self (l : List String) : SliceSubtract l l = [] := by
  apply foldl_subtract_keep
  intro x hx
  exact List.elem_iff.mpr hx

theorem lookupStr_mem_nodup (m : List (String × String)) (kv : String × String)
    (hnd : (m.map Prod.fst).Nodup) (hmem : kv ∈ m) : lookupStr m kv.1 = some kv.2 := by
  induction m with
  | nil => cases hmem
  | cons p rest ih =>
    rw [List.map_cons, List.nodup_cons] at hnd
    rcases List.mem_cons.mp hmem with rfl | hmem
    · simp [lookupStr, List.find?]
    · have hne : (p.1 == kv.1) = false := by
        apply beq_false_of_ne
        intro hEq
        exact hnd.1 (hEq ▸ List.mem_map.mpr ⟨kv, hmem, rfl⟩)
      simp only [lookupStr, List.find?, hne]
      exact ih hnd.2 hmem

theorem foldl_mapSub_keep (m2 : List (String × String)) :
    ∀ (m1 : List (String × String)) (acc : List (String × String)),
      (∀ kv ∈ m1, lookupStr m2 kv.1 = some kv.2) →
      m1.foldl
        (fun m kv =>
          match lookupStr m2 kv.1 with
          | some v2 => if v2 ≠ kv.2 then m ++ [kv] else m
          | none => m ++ [kv]) acc = acc := by
  intro m1
  induction m1 with
  | nil => intro acc _; rfl
  | cons kv rest ih =>
    intro acc h
    have hkv := h kv (List.mem_cons_self kv rest)
    simp only [List.foldl_cons, hkv]
    rw [if_neg (by simp)]
    exact ih acc fun q hq => h q (List.mem_cons_of_mem _ hq)

theorem StringMapSubtract_self (m : List (String × String))
    (hnd : (m.map Prod.fst).Nodup) : StringMapSubtract m m = [] := by
  apply foldl_mapSub_keep
  intro kv hkv
  exact lookupStr_mem_nodup m kv hnd hkv

theorem foldl_structSub_keep (m2 : List String) :
    ∀ (m1 : List String) (acc : List String), (∀ k ∈ m1, m2.contains k = true) →
      m1.foldl (fun m k1 => if m2.contains k1 then m else m ++ [k1]) acc = acc := by
  intro m1
  induction m1 with
  | nil => intro acc _; rfl
  | cons k rest ih =>
    intro acc h
    have hk := h k (List.mem_cons_self k rest)
    simp only [List.foldl_cons, hk, if_pos]
    exact ih acc fun q hq => h q (List.mem_cons_of_mem _ hq)

theorem StructMapSubtract_self (m : List String) : StructMapSubtract m m = [] := by
  apply foldl_structSub_keep
  intro k hk
  exact List.elem_iff.mpr hk

/-! ### Field-preservation lemmas for the reconciliation stages -/

@[simp] theorem applyWorkingDirRule_Entrypoint (i c : ContainerConfig) :
    (applyWorkingDirRule i c).Entrypoint = c.Entrypoint := by
  unfold applyWorkingDirRule; split <;> rfl

@[simp] theorem applyWorkingDirRule_Cmd (i c : ContainerConfig) :
    (applyWorkingDirRule i c).Cmd = c.Cmd := by
  unfold applyWorkingDirRule; split <;> rfl

@[simp] theorem applyWorkingDirRule_Env (i c : ContainerConfig) :
    (applyWorkingDirRule i c).Env = c.Env := by
  unfold applyWorkingDirRule; split <;> rfl

@[simp] theorem applyWorkingDirRule_Labels (i c : ContainerConfig) :
    (applyWorkingDirRule i c).Labels = c.Labels := by
  unfold applyWorkingDirRule; split <;> rfl

@[simp] theorem applyWorkingDirRule_Volumes (i c : ContainerConfig) :
    (applyWorkingDirRule i c).Volumes = c.Volumes := by
  unfold applyWorkingDirRule; split <;> rfl

@[simp] theorem applyUserRule_Entrypoint (i c : ContainerConfig) :
    (applyUserRule i c).Entrypoint = c.Entrypoint := by
  unfold applyUserRule; split <;> rfl

@[simp] theorem applyUserRule_Cmd (i c : ContainerConfig) :
    (applyUserRule i c).Cmd = c.Cmd := by
  unfold applyUserRule; split <;> rfl

@[simp] theorem applyUserRule_Env (i c : ContainerConfig) :
    (applyUserRule i c).Env = c.Env := by
  unfold applyUserRule; split <;> rfl

@[simp] theorem applyUserRule_Labels (i c : ContainerConfig) :
    (applyUserRule i c).Labels = c.Labels := by
  unfold applyUserRule; split <;> rfl

@[simp] theorem applyUserRule_Volumes (i c : ContainerConfig) :
    (applyUserRule i c).Volumes = c.Volumes := by
  unfold applyUserRule; split <;> rfl

@[simp] theorem applyHostnameRule_Entrypoint (h : HostConfig) (c : ContainerConfig) :
    (applyHostnameRule h c).Entrypoint = c.Entrypoint := by
  unfold applyHostnameRule; split <;> rfl

@[simp] theorem applyHostnameRule_Cmd (h : HostConfig) (c : ContainerConfig) :
    (applyHostnameRule h c).Cmd = c.Cmd := by
  unfold applyHostnameRule; split <;> rfl

@[simp] theorem applyHostnameRule_Env (h : HostConfig) (c : ContainerConfig) :
    (applyHostnameRule h c).Env = c.Env := by
  unfold applyHostnameRule; split <;> rfl

@[simp] theorem applyHostnameRule_Labels (h : HostConfig) (c : ContainerConfig) :
    (applyHostnameRule h c).Labels = c.Labels := by
  unfold applyHostnameRule; split <;> rfl

@[simp] theorem applyHostnameRule_Volumes (h : HostConfig) (c : ContainerConfig) :
    (applyHostnameRule h c).Volumes = c.Volumes := by
  unfold applyHostnameRule; split <;> rfl

theorem applyEntrypointCmdRule_Entrypoint (i c : ContainerConfig) :
    (applyEntrypointCmdRule i c).Entrypoint =
      (if SliceEqual (goSlice c.Entrypoint) (goSlice i.Entrypoint) then none
       else c.Entrypoint) := by
  unfold applyEntrypointCmdRule
  rcases h1 : SliceEqual (goSlice c.Entrypoint) (goSlice i.Entrypoint) with _ | _ <;>
    rcases h2 : SliceEqual (goSlice c.Cmd) (goSlice i.Cmd) with _ | _ <;>
      simp [h1, h2]

theorem applyEntrypointCmdRule_Cmd (i c : ContainerConfig) :
    (applyEntrypointCmdRule i c).Cmd =
      (if SliceEqual (goSlice c.Entrypoint) (goSlice i.Entrypoint)
          && SliceEqual (goSlice c.Cmd) (goSlice i.Cmd) then none
       else c.Cmd) := by
  unfold applyEntrypointCmdRule
  rcases h1 : SliceEqual (goSlice c.Entrypoint) (goSlice i.Entrypoint) with _ | _ <;>
    rcases h2 : SliceEqual (goSlice c.Cmd) (goSlice i.Cmd) with _ | _ <;>
      simp [h1, h2]

@[simp] theorem applyEntrypointCmdRule_Env (i c : ContainerConfig) :
    (applyEntrypointCmdRule i c).Env = c.Env := by
  unfold applyEntrypointCmdRule
  rcases h1 : SliceEqual (goSlice c.Entrypoint) (goSlice i.Entrypoint) with _ | _ <;>
    rcases h2 : SliceEqual (goSlice c.Cmd) (goSlice i.Cmd) with _ | _ <;>
      simp [h1, h2]

@[simp] theorem applyEntrypointCmdRule_Labels (i c : ContainerConfig) :
    (applyEntrypointCmdRule i c).Labels = c.Labels := by
  unfold applyEntrypointCmdRule
  rcases h1 : SliceEqual (goSlice c.Entrypoint) (goSlice i.Entrypoint) with _ | _ <;>
    rcases h2 : SliceEqual (goSlice c.Cmd) (goSlice i.Cmd) with _ | _ <;>
      simp [h1, h2]

@[simp] theorem applyEntrypointCmdRule_Volumes (i c : ContainerConfig) :
    (applyEntrypointCmdRule i c).Volumes = c.Volumes := by
  unfold applyEntrypointCmdRule
  rcases h1 : SliceEqual (goSlice c.Entrypoint) (goSlice i.Entrypoint) with _ | _ <;>
    rcases h2 : SliceEqual (goSlice c.Cmd) (goSlice i.Cmd) with _ | _ <;>
      simp [h1, h2]

@[simp] theorem applyHealthcheckRule_Entrypoint (i c : ContainerConfig) :
    (applyHealthcheckRule i c).Entrypoint = c.Entrypoint := by
  unfold applyHealthcheckRule
  rcases c.Healthcheck with _ | hc <;> rcases i.Healthcheck with _ | ihc <;> rfl

@[simp] theorem applyHealthcheckRule_Cmd (i c : ContainerConfig) :
    (applyHealthcheckRule i c).Cmd = c.Cmd := by
  unfold applyHealthcheckRule
  rcases c.Healthcheck with _ | hc <;> rcases i.Healthcheck with _ | ihc <;> rfl

@[simp] theorem applyHealthcheckRule_Env (i c : ContainerConfig) :
    (applyHealthcheckRule i c).Env = c.Env := by
  unfold applyHealthcheckRule
  rcases c.Healthcheck with _ | hc <;> rcases i.Healthcheck with _ | ihc <;> rfl

@[simp] theorem applyHealthcheckRule_Labels (i c : ContainerConfig) :
    (applyHealthcheckRule i c).Labels = c.Labels := by
  unfold applyHealthcheckRule
  rcases c.Healthcheck with _ | hc <;> rcases i.Healthcheck with _ | ihc <;> rfl

@[simp] theorem applyHealthcheckRule_Volumes (i c : ContainerConfig) :
    (applyHealthcheckRule i c).Volumes = c.Volumes := by
  unfold applyHealthcheckRule
  rcases c.Healthcheck with _ | hc <;> rcases i.Healthcheck with _ | ihc <;> rfl

@[simp] theorem applyEnvRule_Entrypoint (i c : ContainerConfig) :
    (applyEnvRule i c).Entrypoint = c.Entrypoint := rfl

@[simp] theorem applyEnvRule_Cmd (i c : ContainerConfig) :
    (applyEnvRule i c).Cmd = c.Cmd := rfl

@[simp] theorem applyEnvRule_Env (i c : ContainerConfig) :
    (applyEnvRule i c).Env = SliceSubtract c.Env i.Env := rfl

@[simp] theorem applyEnvRule_Labels (i c : ContainerConfig) :
    (applyEnvRule i c).Labels = c.Labels := rfl

@[simp] theorem applyEnvRule_Volumes (i c : ContainerConfig) :
    (applyEnvRule i c).Volumes = c.Volumes := rfl

@[simp] theorem applyLabelsRule_Entrypoint (i c : ContainerConfig) :
    (applyLabelsRule i c).Entrypoint = c.Entrypoint := rfl

@[simp] theorem applyLabelsRule_Cmd (i c : ContainerConfig) :
    (applyLabelsRule i c).Cmd = c.Cmd := rfl

@[simp] theorem applyLabelsRule_Env (i c : ContainerConfig) :
    (applyLabelsRule i c).Env = c.Env := rfl

@[simp] theorem applyLabelsRule_Labels (i c : ContainerConfig) :
    (applyLabelsRule i c).Labels = StringMapSubtract c.Labels i.Labels := rfl

@[simp] theorem applyLabelsRule_Volumes (i c : ContainerConfig) :
    (applyLabelsRule i c).Volumes = c.Volumes := rfl

@[simp] theorem applyVolumesRule_Entrypoint (i c : ContainerConfig) :
    (applyVolumesRule i c).Entrypoint = c.Entrypoint := rfl

@[simp] theorem applyVolumesRule_Cmd (i c : ContainerConfig) :
    (applyVolumesRule i c).Cmd = c.Cmd := rfl

@[simp] theorem applyVolumesRule_Env (i c : ContainerConfig) :
    (applyVolumesRule i c).Env = c.Env := rfl

@[simp] theorem applyVolumesRule_Labels (i c : ContainerConfig) :
    (applyVolumesRule i c).Labels = c.Labels := rfl

@[simp] theorem applyVolumesRule_Volumes (i c : ContainerConfig) :
    (applyVolumesRule i c).Volumes = StructMapSubtract c.Volumes i.Volumes := rfl

@[simp] theorem applyExposedPortsRule_Entrypoint (i : ContainerConfig) (h : HostConfig)
    (c : ContainerConfig) : (applyExposedPortsRule i h c).Entrypoint = c.Entrypoint := rfl

@[simp] theorem applyExposedPortsRule_Cmd (i : ContainerConfig) (h : HostConfig)
    (c : ContainerConfig) : (applyExposedPortsRule i h c).Cmd = c.Cmd := rfl

@[simp] theorem applyExposedPortsRule_Env (i : ContainerConfig) (h : HostConfig)
    (c : ContainerConfig) : (applyExposedPortsRule i h c).Env = c.Env := rfl

@[simp] theorem applyExposedPortsRule_Labels (i : ContainerConfig) (h : HostConfig)
    (c : ContainerConfig) : (applyExposedPortsRule i h c).Labels = c.Labels := rfl

@[simp] theorem applyExposedPortsRule_Volumes (i : ContainerConfig) (h : HostConfig)
    (c : ContainerConfig) : (applyExposedPortsRule i h c).Volumes = c.Volumes := rfl

/-! ## Claim theorems -/

/-- C8: during reconciliation the entrypoint is cleared exactly when it is
identical to the image default, and the command is cleared exactly when the
entrypoint was cleared and the command also matches the image default; in
particular a command matching the image default is kept whenever the
entrypoint differs from the image default. -/
theorem GetCreateConfig_entrypoint_cmd (cj : ContainerJSON) (img : ContainerConfig)
    (name : String) :
    (GetCreateConfig cj img name).Entrypoint =
      (if SliceEqual (goSlice cj.Config.Entrypoint) (goSlice img.Entrypoint) then none
       else cj.Config.Entrypoint) ∧
    (GetCreateConfig cj img name).Cmd =
      (if SliceEqual (goSlice cj.Config.Entrypoint) (goSlice img.Entrypoint)
          && SliceEqual (goSlice cj.Config.Cmd) (goSlice img.Cmd) then none
       else cj.Config.Cmd) := by
  refine ⟨?_, ?_⟩ <;>
    simp [GetCreateConfig, applyEntrypointCmdRule_Entrypoint, applyEntrypointCmdRule_Cmd]

/-- C6: reconciling a configuration identical in every overridable field to
the image defaults yields an empty environment-override list, an empty
label-override map, an empty volume-override set, and null entrypoint and
command.  (The label map carries Go's unique-key guarantee.) -/
theorem GetCreateConfig_roundtrip_empty (cj : ContainerJSON) (img : ContainerConfig)
    (name : String)
    (hEnv : cj.Config.Env = img.Env)
    (hLabels : cj.Config.Labels = img.Labels)
    (hKeys : (img.Labels.map Prod.fst).Nodup)
    (hVol : cj.Config.Volumes = img.Volumes)
    (hEp : goSlice cj.Config.Entrypoint = goSlice img.Entrypoint)
    (hCmd : goSlice cj.Config.Cmd = goSlice img.Cmd) :
    (GetCreateConfig cj img name).Env = [] ∧
    (GetCreateConfig cj img name).Labels = [] ∧
    (GetCreateConfig cj img name).Volumes = [] ∧
    (GetCreateConfig cj img name).Entrypoint = none ∧
    (GetCreateConfig cj img name).Cmd = none := by
  refine ⟨?_, ?_, ?_, ?_, ?_⟩ <;>
    simp [GetCreateConfig, applyEntrypointCmdRule_Entrypoint, applyEntrypointCmdRule_Cmd,
      hEnv, hLabels, hVol, hEp, hCmd, SliceEqual_refl, SliceSubtract_self,
      StringMapSubtract_self _ hKeys, StructMapSubtract_self]

/-- Witness for C6 at a concrete container/image pair. -/
theorem GetCreateConfig_roundtrip_empty_witness :
    (GetCreateConfig rtCJ rtImgCfg "app:2").Env = [] ∧
    (GetCreateConfig rtCJ rtImgCfg "app:2").Labels = [] ∧
    (GetCreateConfig rtCJ rtImgCfg "app:2").Volumes = [] ∧
    (GetCreateConfig rtCJ rtImgCfg "app:2").Entrypoint = none ∧
    (GetCreateConfig rtCJ rtImgCfg "app:2").Cmd = none :=
  GetCreateConfig_roundtrip_empty rtCJ rtImgCfg "app:2" rfl rfl (by decide) rfl rfl rfl

/-- C3: an image check reports an update exactly when both hash retrievals
succeed and disagree; when either retrieval fails, the result carries a
non-empty error message and the updated flag stays false. -/
theorem CheckUpdate_updated_iff (glh grh : String → Except String String) (name : String) :
    ((CheckUpdate glh grh name).1.IsUpdated = true ↔
      ∃ lh rh, glh name = Except.ok lh ∧ grh name = Except.ok rh ∧ lh ≠ rh) ∧
    (((∃ e, glh name = Except.error e) ∨ (∃ e, grh name = Except.error e)) →
      (CheckUpdate glh grh name).1.Error ≠ "" ∧
      (CheckUpdate glh grh name).1.IsUpdated = false) := by
  rcases hg : glh name with e | lh
  · refine ⟨by simp [CheckUpdate, hg], fun _ => ⟨?_, by simp [CheckUpdate, hg]⟩⟩
    simp only [CheckUpdate, hg]
    exact string_append_ne_empty _ _ (by decide)
  · rcases hr : grh name with e | rh
    · refine ⟨by simp [CheckUpdate, hg, hr], fun _ => ⟨?_, by simp [CheckUpdate, hg, hr]⟩⟩
      simp only [CheckUpdate, hg, hr]
      exact string_append_ne_empty _ _ (by decide)
    · constructor
      · simp [CheckUpdate, hg, hr, bne_iff_ne]
      · rintro (⟨e, he⟩ | ⟨e, he⟩) <;> simp [hg, hr] at he

/-- C10: a batch check result whose summary reports zero updated images
makes the batch update a pure no-op: success and not a single engine
call. -/
theorem UpdateContainersByBatchCheckResult_noop (o : OperOracle) (result : BatchCheckResult)
    (h : result.Summary.Updated = 0) :
    UpdateContainersByBatchCheckResult o result = ([], Except.ok ()) := by
  unfold UpdateContainersByBatchCheckResult
  simp [h]

/-- Witness for C10 on a concrete nothing-updated batch. -/
theorem UpdateContainersByBatchCheckResult_noop_witness :
    UpdateContainersByBatchCheckResult operOracleDown noUpdateBatch = ([], Except.ok ()) :=
  UpdateContainersByBatchCheckResult_noop operOracleDown noUpdateBatch rfl

/-- C4 (exhibit of the divergence): on a container that pins a working
directory differing from the image default, the configuration the ordinary
replacement path passes to create is not the reconciled configuration the
self-replacement path uses — the hand-picked copy silently drops the pinned
working directory (and the environment subtraction). -/
theorem operator_config_drops_reconciled_fields :
    operatorCreateConfig wdCJ "watchducker:latest" ≠
      GetCreateConfig wdCJ wdImgCfg "watchducker:latest" ∧
    (GetCreateConfig wdCJ wdImgCfg "watchducker:latest").WorkingDir = "/data" ∧
    (operatorCreateConfig wdCJ "watchducker:latest").WorkingDir = "" := by
  refine ⟨?_, by decide, rfl⟩
  decide

/-- Fold lemma for the summary loop: each result increments exactly one of
the three counters. -/
theorem tally_sum (l : List ImageCheckResult) :
    ∀ acc : Nat × Nat × Nat,
      (l.foldl tallyStep acc).1 + (l.foldl tallyStep acc).2.1 + (l.foldl tallyStep acc).2.2
        = acc.1 + acc.2.1 + acc.2.2 + l.length := by
  induction l with
  | nil => intro acc; simp
  | cons i rest ih =>
    intro acc
    rw [List.foldl_cons, ih (tallyStep acc i)]
    unfold tallyStep
    split_ifs <;> simp [List.length_cons] <;> omega

/-- C1: in every batch check, the summary counts satisfy
updated + up-to-date + failed = number of `ImageCheckResult` entries, and
that number is exactly the reported total of images processed (unique
resolvable images plus skipped unresolvable ones). -/
theorem checkImages_summary_invariant (inspect : String → Except String ImageInspectData)
    (glh grh : String → Except String String) (containers : List ContainerInfo) :
    ((checkImages inspect glh grh containers).1.Summary.Updated
      + (checkImages inspect glh grh containers).1.Summary.UpToDate
      + (checkImages inspect glh grh containers).1.Summary.Failed
      = (checkImages inspect glh grh containers).1.Images.length) ∧
    (checkImages inspect glh grh containers).1.Images.length
      = (checkImages inspect glh grh containers).1.Summary.TotalImages := by
  unfold checkImages
  by_cases h : containers.length = 0
  · simp [h]
  · rw [if_neg h]
    refine ⟨?_, ?_⟩
    · simpa [tallySummary] using
        tally_sum ((extractImageReferences inspect containers).2
          ++ ((extractImageReferences inspect containers).1.map
                (CheckUpdate glh grh)).map Prod.fst) (0, 0, 0)
    · simp [List.length_append, List.length_map, Nat.add_comm]

/-- Membership in the deduplicated reference list produced by the
extraction loop: exactly the references some remaining container resolves
to, on top of what was already collected. -/
theorem extractGo_fst_mem (inspect : String → Except String ImageInspectData) :
    ∀ (rest : List ContainerInfo) (images : List String) (skipped : List ImageCheckResult)
      (r : String),
      r ∈ (extractGo inspect rest images images skipped).1 ↔
        r ∈ images ∨ ∃ c, c ∈ rest ∧ NormalizeReference inspect c.Image = Except.ok r := by
  intro rest
  induction rest with
  | nil =>
    intro images skipped r
    simp [extractGo]
  | cons c rest ih =>
    intro images skipped r
    rcases hn : NormalizeReference inspect c.Image with e | normalized
    · simp only [extractGo, hn]
      rw [ih]
      constructor
      · rintro (h | ⟨d, hd, hok⟩)
        · exact Or.inl h
        · exact Or.inr ⟨d, List.mem_cons_of_mem _ hd, hok⟩
      · rintro (h | ⟨d, hd, hok⟩)
        · exact Or.inl h
        · rcases List.mem_cons.mp hd with rfl | hd
          · rw [hn] at hok; cases hok
          · exact Or.inr ⟨d, hd, hok⟩
    · rcases hmem : images.contains normalized with _ | _
      · have hnotmem : normalized ∉ images := by
          intro hm
          have hc2 : images.contains normalized = true := List.elem_iff.mpr hm
          rw [hc2] at hmem
          cases hmem
        simp only [extractGo, hn, hmem, Bool.false_eq_true, if_false]
        rw [ih]
        constructor
        · rintro (h | ⟨d, hd, hok⟩)
          · rcases List.mem_append.mp h with h | h
            · exact Or.inl h
            · refine Or.inr ⟨c, List.mem_cons_self c rest, ?_⟩
              rw [hn, List.mem_singleton.mp h]
          · exact Or.inr ⟨d, List.mem_cons_of_mem _ hd, hok⟩
        · rintro (h | ⟨d, hd, hok⟩)
          · exact Or.inl (List.mem_append.mpr (Or.inl h))
          · rcases List.mem_cons.mp hd with rfl | hd
            · rw [hn] at hok
              cases hok
              exact Or.inl (List.mem_append.mpr (Or.inr (List.mem_singleton.mpr rfl)))
            · exact Or.inr ⟨d, hd, hok⟩
      · have hmem2 : normalized ∈ images := List.elem_iff.mp hmem
        simp only [extractGo, hn, hmem, if_true]
        rw [ih]
        constructor
        · rintro (h | ⟨d, hd, hok⟩)
          · exact Or.inl h
          · exact Or.inr ⟨d, List.mem_cons_of_mem _ hd, hok⟩
        · rintro (h | ⟨d, hd, hok⟩)
          · exact Or.inl h
          · rcases List.mem_cons.mp hd with rfl | hd
            · rw [hn] at hok
              cases hok
              exact Or.inl hmem2
            · exact Or.inr ⟨d, hd, hok⟩

/-- The extraction loop never duplicates a reference. -/
theorem extractGo_fst_nodup (inspect : String → Except String ImageInspectData) :
    ∀ (rest : List ContainerInfo) (images : List String) (skipped : List ImageCheckResult),
      images.Nodup → (extractGo inspect rest images images skipped).1.Nodup := by
  intro rest
  induction rest with
  | nil => intro images skipped h; simpa [extractGo] using h
  | cons c rest ih =>
    intro images skipped h
    rcases hn : NormalizeReference inspect c.Image with e | normalized
    · simp only [extractGo, hn]
      exact ih _ _ h
    · rcases hmem : images.contains normalized with _ | _
      · have hnotmem : normalized ∉ images := by
          intro hm
          have hc2 : images.contains normalized = true := List.elem_iff.mpr hm
          rw [hc2] at hmem
          cases hmem
        simp only [extractGo, hn, hmem, Bool.false_eq_true, if_false]
        apply ih
        simp [List.nodup_append, h, hnotmem]
      · simp only [extractGo, hn, hmem, if_true]
        exact ih _ _ h

/-- C2: the image-check tasks of a batch are exactly one per distinct
successfully-resolved image reference — deduplication happens on the
resolved form, no reference appears twice, references failing resolution
are excluded, and the task count equals the number K of distinct resolved
references. -/
theorem pullTasks_one_per_unique_resolved (inspect : String → Except String ImageInspectData)
    (containers : List ContainerInfo) :
    (pullTasks inspect containers).Nodup ∧
    (∀ r, r ∈ pullTasks inspect containers ↔
      ∃ c, c ∈ containers ∧ NormalizeReference inspect c.Image = Except.ok r) ∧
    (pullTasks inspect containers).length =
      (containers.filterMap
        (fun c =>
          match NormalizeReference inspect c.Image with
          | Except.ok r => some r
          | Except.error _ => none)).toFinset.card := by
  have hnd : (pullTasks inspect containers).Nodup :=
    extractGo_fst_nodup inspect containers [] [] List.nodup_nil
  have hmem : ∀ r, r ∈ pullTasks inspect containers ↔
      ∃ c, c ∈ containers ∧ NormalizeReference inspect c.Image = Except.ok r := by
    intro r
    have := extractGo_fst_mem inspect containers [] [] r
    simpa [pullTasks, extractImageReferences] using this
  refine ⟨hnd, hmem, ?_⟩
  have hset : (pullTasks inspect containers).toFinset =
      (containers.filterMap
        (fun c =>
          match NormalizeReference inspect c.Image with
          | Except.ok r => some r
          | Except.error _ => none)).toFinset := by
    ext r
    rw [List.mem_toFinset, List.mem_toFinset, hmem, List.mem_filterMap]
    constructor
    · rintro ⟨c, hc, hok⟩
      exact ⟨c, hc, by rw [hok]⟩
    · rintro ⟨c, hc, hok⟩
      refine ⟨c, hc, ?_⟩
      rcases hn : NormalizeReference inspect c.Image with e | s
      · rw [hn] at hok; cases hok
      · rw [hn] at hok
        simp only [Option.some.injEq] at hok
        rw [hok]
  rw [← List.toFinset_card_of_nodup hnd, hset]

/-! ### Self-replacement state-machine lemmas -/

theorem disconnectAll_ok (o : SelfOracle) (cid : String)
    (hd : ∀ n, o.disconnectOk n = true) :
    ∀ (nets : List String) (st : DockerState) (tr : List Ev),
      disconnectAll o st tr nets cid =
        (st, tr ++ nets.map (fun n => Ev.netDisconnect n cid), Except.ok ()) := by
  intro nets
  induction nets with
  | nil => intro st tr; simp [disconnectAll]
  | cons n rest ih =>
    intro st tr
    simp only [disconnectAll, doDisconnect, hd n, if_true]
    rw [ih]
    simp

theorem connectAll_ok (o : SelfOracle) (cid : String)
    (hcon : ∀ n, o.connectOk n = true) :
    ∀ (nets : List String) (st : DockerState) (tr : List Ev),
      connectAll o st tr nets cid =
        (st, tr ++ nets.map (fun n => Ev.netConnect n cid), Except.ok ()) := by
  intro nets
  induction nets with
  | nil => intro st tr; simp [connectAll]
  | cons n rest ih =>
    intro st tr
    simp only [connectAll, doConnect, hcon n, if_true]
    rw [ih]
    simp

theorem rename_map_roundtrip (st : DockerState) (cid origName tmpName : String)
    (hnames : ∀ c ∈ st, c.id = cid → c.name = origName) :
    ((st.map (fun c => if c.id = cid then { c with name := tmpName } else c)).map
      (fun c => if c.id = cid then { c with name := origName } else c)) = st := by
  rw [List.map_map]
  have hpt : ∀ c ∈ st,
      ((fun c => if c.id = cid then { c with name := origName } else c) ∘
        (fun c => if c.id = cid then { c with name := tmpName } else c)) c = c := by
    intro c hc
    by_cases h : c.id = cid
    · have hcn := hnames c hc h
      cases c
      simp_all
    · simp [Function.comp, h]
  calc st.map ((fun c => if c.id = cid then { c with name := origName } else c) ∘
          (fun c => if c.id = cid then { c with name := tmpName } else c))
      = st.map id := List.map_congr_left hpt
    _ = st := List.map_id st

theorem selfCreateNewContainer_ok_nonhost (o : SelfOracle) (st : DockerState) (tr : List Ev)
    (cj : ContainerJSON) (img : ContainerConfig) (newImage nm : String)
    (hc : o.createOk = true)
    (hh : networkModeIsHost cj.HostConfig.NetworkMode = false)
    (hd : ∀ n, o.disconnectOk n = true) (hcon : ∀ n, o.connectOk n = true) :
    selfCreateNewContainer o st tr cj img newImage nm =
      ({ id := o.newId, name := nm, running := false } :: st,
       tr ++ [Ev.create nm (GetCreateConfig cj img newImage) (cj.Networks.take 1)]
          ++ (cj.Networks.take 1).map (fun n => Ev.netDisconnect n o.newId)
          ++ cj.Networks.map (fun n => Ev.netConnect n o.newId),
       Except.ok o.newId) := by
  simp only [selfCreateNewContainer, doCreate, hc, if_true, hh, Bool.false_eq_true, if_false]
  rw [disconnectAll_ok o o.newId hd, connectAll_ok o o.newId hcon]

theorem selfCreateNewContainer_ok_host (o : SelfOracle) (st : DockerState) (tr : List Ev)
    (cj : ContainerJSON) (img : ContainerConfig) (newImage nm : String)
    (hc : o.createOk = true)
    (hh : networkModeIsHost cj.HostConfig.NetworkMode = true) :
    selfCreateNewContainer o st tr cj img newImage nm =
      ({ id := o.newId, name := nm, running := false } :: st,
       tr ++ [Ev.create nm (GetCreateConfig cj img newImage) (cj.Networks.take 1)],
       Except.ok o.newId) := by
  simp only [selfCreateNewContainer, doCreate, hc, if_true, hh]

theorem selfCreateNewContainer_createFail (o : SelfOracle) (st : DockerState) (tr : List Ev)
    (cj : ContainerJSON) (img : ContainerConfig) (newImage nm : String)
    (hc : o.createOk = false) :
    selfCreateNewContainer o st tr cj img newImage nm =
      (st, tr ++ [Ev.create nm (GetCreateConfig cj img newImage) (cj.Networks.take 1)],
       Except.error "create container failed") := by
  simp only [selfCreateNewContainer, doCreate, hc, Bool.false_eq_true, if_false]

theorem selfCreateNewContainer_discFail (o : SelfOracle) (st : DockerState) (tr : List Ev)
    (cj : ContainerJSON) (img : ContainerConfig) (newImage nm : String)
    (n : String) (rest : List String)
    (hc : o.createOk = true)
    (hh : networkModeIsHost cj.HostConfig.NetworkMode = false)
    (hnet : cj.Networks = n :: rest)
    (hdf : o.disconnectOk n = false) :
    selfCreateNewContainer o st tr cj img newImage nm =
      ({ id := o.newId, name := nm, running := false } :: st,
       tr ++ [Ev.create nm (GetCreateConfig cj img newImage) [n], Ev.netDisconnect n o.newId],
       Except.error "network disconnect failed") := by
  simp only [selfCreateNewContainer, doCreate, hc, if_true, hh, Bool.false_eq_true, if_false,
    hnet, List.take_cons, List.take_zero]
  simp only [disconnectAll, doDisconnect, hdf, Bool.false_eq_true, if_false]
  simp

theorem connectAll_state (o : SelfOracle) (cid : String) :
    ∀ (nets : List String) (st : DockerState) (tr : List Ev),
      (connectAll o st tr nets cid).1 = st := by
  intro nets
  induction nets with
  | nil => intro st tr; rfl
  | cons m rest ih =>
    intro st tr
    rcases hcm : o.connectOk m with _ | _ <;>
      simp only [connectAll, doConnect, hcm, Bool.false_eq_true, if_false, if_true]
    exact ih _ _

theorem connectAll_fail_err (o : SelfOracle) (cid : String) :
    ∀ (nets : List String), (∃ m, m ∈ nets ∧ o.connectOk m = false) →
      ∀ (st : DockerState) (tr : List Ev),
        (connectAll o st tr nets cid).2.2 = Except.error "network connect failed" := by
  intro nets
  induction nets with
  | nil =>
    intro h st tr
    rcases h with ⟨m, hm, _⟩
    cases hm
  | cons m rest ih =>
    intro h st tr
    rcases hcm : o.connectOk m with _ | _
    · simp only [connectAll, doConnect, hcm, Bool.false_eq_true, if_false]
    · have hrest : ∃ m2, m2 ∈ rest ∧ o.connectOk m2 = false := by
        rcases h with ⟨m2, hm2, hf⟩
        rcases List.mem_cons.mp hm2 with rfl | hm2
        · rw [hcm] at hf; cases hf
        · exact ⟨m2, hm2, hf⟩
      simp only [connectAll, doConnect, hcm, if_true]
      exact ih hrest _ _

theorem selfCreateNewContainer_connFail_state (o : SelfOracle)
    (cj : ContainerJSON) (img : ContainerConfig) (newImage nm : String)
    (n : String) (rest : List String)
    (hc : o.createOk = true)
    (hh : networkModeIsHost cj.HostConfig.NetworkMode = false)
    (hnet : cj.Networks = n :: rest)
    (hdn : o.disconnectOk n = true)
    (hcf : ∃ m, m ∈ cj.Networks ∧ o.connectOk m = false) :
    ∀ (st : DockerState) (tr : List Ev),
      (selfCreateNewContainer o st tr cj img newImage nm).1 =
        { id := o.newId, name := nm, running := false } :: st := by
  rw [hnet] at hcf
  intro st tr
  simp only [selfCreateNewContainer, doCreate, hc, if_true, hh, Bool.false_eq_true, if_false,
    hnet, List.take_cons, List.take_zero]
  simp only [disconnectAll, doDisconnect, hdn, if_true]
  rw [connectAll_fail_err o o.newId (n :: rest) hcf]
  rw [connectAll_state o o.newId (n :: rest)]

theorem selfCreateNewContainer_connFail_err (o : SelfOracle)
    (cj : ContainerJSON) (img : ContainerConfig) (newImage nm : String)
    (n : String) (rest : List String)
    (hc : o.createOk = true)
    (hh : networkModeIsHost cj.HostConfig.NetworkMode = false)
    (hnet : cj.Networks = n :: rest)
    (hdn : o.disconnectOk n = true)
    (hcf : ∃ m, m ∈ cj.Networks ∧ o.connectOk m = false) :
    ∀ (st : DockerState) (tr : List Ev),
      (selfCreateNewContainer o st tr cj img newImage nm).2.2 =
        Except.error "network connect failed" := by
  rw [hnet] at hcf
  intro st tr
  simp only [selfCreateNewContainer, doCreate, hc, if_true, hh, Bool.false_eq_true, if_false,
    hnet, List.take_cons, List.take_zero]
  simp only [disconnectAll, doDisconnect, hdn, if_true]
  rw [connectAll_fail_err o o.newId (n :: rest) hcf]

/-- C9: once the replacement container has started successfully, failures
while stopping or removing the renamed old container do not affect the
outcome — the self-update still returns success. -/
theorem selfUpdate_succeeds_despite_cleanup_failure (o : SelfOracle) (st : DockerState)
    (info : ContainerInfo) (cj : ContainerJSON) (img : ContainerConfig)
    (newImage suffix : String)
    (hren : ∀ a b, o.renameOk a b = true)
    (hc : o.createOk = true) (hs : o.startOk = true)
    (hd : ∀ n, o.disconnectOk n = true) (hcon : ∀ n, o.connectOk n = true)
    (hfail : o.stopOk info.ID = false ∨ o.removeOk info.ID = false) :
    (selfUpdateContainer o st info cj img newImage suffix).2.2 = Except.ok () := by
  rcases hh : networkModeIsHost cj.HostConfig.NetworkMode with _ | _
  · simp only [selfUpdateContainer, doRename, hren, if_true]
    rw [selfCreateNewContainer_ok_nonhost o _ _ cj img newImage info.Name hc hh hd hcon]
    rcases hst : o.stopOk info.ID with _ | _ <;>
      rcases hrm : o.removeOk info.ID with _ | _ <;>
        simp [doStart, doStop, doRemove, hs, hst, hrm]
  · simp only [selfUpdateContainer, doRename, hren, if_true]
    rw [selfCreateNewContainer_ok_host o _ _ cj img newImage info.Name hc hh]
    rcases hst : o.stopOk info.ID with _ | _ <;>
      rcases hrm : o.removeOk info.ID with _ | _ <;>
        simp [doStart, doStop, doRemove, hs, hst, hrm]

/-- Witness for C9: once with only the stop of the old container failing
and once with only its removal failing, the self-update reports success
both times. -/
theorem selfUpdate_cleanup_failure_witness :
    ((selfUpdateContainer oracleStopFail wdState wdInfo wdCJ wdImgCfg
        "watchducker:latest" "abcd1234").2.2 = Except.ok ()) ∧
    ((selfUpdateContainer oracleRemoveFail wdState wdInfo wdCJ wdImgCfg
        "watchducker:latest" "abcd1234").2.2 = Except.ok ()) :=
  ⟨selfUpdate_succeeds_despite_cleanup_failure oracleStopFail wdState wdInfo wdCJ wdImgCfg
      "watchducker:latest" "abcd1234" (fun _ _ => rfl) rfl rfl (fun _ => rfl) (fun _ => rfl)
      (Or.inl rfl),
   selfUpdate_succeeds_despite_cleanup_failure oracleRemoveFail wdState wdInfo wdCJ wdImgCfg
      "watchducker:latest" "abcd1234" (fun _ _ => rfl) rfl rfl (fun _ => rfl) (fun _ => rfl)
      (Or.inr rfl)⟩

/-- C5 (amended): during self-update, when container creation itself fails
the old container's name is restored, the error is propagated, and the
engine state is exactly what it was (no replacement container); when the
network disconnect/reconnect sequence fails after a successful creation —
whether the disconnect of the attached network or any of the reconnects
fails — the name is restored and the error propagated, but the created
(not yet started) replacement container is left behind in the engine
state. -/
theorem selfUpdate_rollback_amended (o : SelfOracle) (st : DockerState)
    (info : ContainerInfo) (cj : ContainerJSON) (img : ContainerConfig)
    (newImage suffix : String)
    (hren : ∀ a b, o.renameOk a b = true)
    (hnames : ∀ c ∈ st, c.id = info.ID → c.name = info.Name) :
    (o.createOk = false →
      selfUpdateContainer o st info cj img newImage suffix =
        (st,
         [Ev.rename info.ID (info.Name ++ "_" ++ suffix),
          Ev.create info.Name (GetCreateConfig cj img newImage) (cj.Networks.take 1),
          Ev.rename info.ID info.Name],
         Except.error "create new container failed: create container failed")) ∧
    (∀ n rest, cj.Networks = n :: rest →
      networkModeIsHost cj.HostConfig.NetworkMode = false →
      o.createOk = true →
      (o.disconnectOk n = false ∨ ∃ m, m ∈ cj.Networks ∧ o.connectOk m = false) →
      o.newId ≠ info.ID →
      (selfUpdateContainer o st info cj img newImage suffix).1 =
        { id := o.newId, name := info.Name, running := false } :: st ∧
      ∃ e, (selfUpdateContainer o st info cj img newImage suffix).2.2 =
        Except.error ("create new container failed: " ++ e)) := by
  constructor
  · intro hcf
    simp only [selfUpdateContainer, doRename, hren, if_true]
    rw [selfCreateNewContainer_createFail o _ _ cj img newImage info.Name hcf]
    simp only []
    rw [rename_map_roundtrip st info.ID info.Name (info.Name ++ "_" ++ suffix) hnames]
    simp
  · intro n rest hnet hh hc hfail hid
    rcases hdn : o.disconnectOk n with _ | _
    · simp only [selfUpdateContainer, doRename, hren, if_true]
      rw [selfCreateNewContainer_discFail o _ _ cj img newImage info.Name n rest hc hh hnet hdn]
      refine ⟨?_, "network disconnect failed", rfl⟩
      simp only [doRename, hren, if_true, List.map_cons]
      rw [if_neg hid]
      rw [rename_map_roundtrip st info.ID info.Name (info.Name ++ "_" ++ suffix) hnames]
    · have hconn : ∃ m, m ∈ cj.Networks ∧ o.connectOk m = false := by
        rcases hfail with hdf | h
        · rw [hdn] at hdf; cases hdf
        · exact h
      simp only [selfUpdateContainer, doRename, hren, if_true]
      rw [selfCreateNewContainer_connFail_err o cj img newImage info.Name n rest hc hh hnet
        hdn hconn]
      refine ⟨?_, "network connect failed", rfl⟩
      rw [selfCreateNewContainer_connFail_state o cj img newImage info.Name n rest hc hh hnet
        hdn hconn]
      simp only [doRename, hren, if_true, List.map_cons]
      rw [if_neg hid]
      rw [rename_map_roundtrip st info.ID info.Name (info.Name ++ "_" ++ suffix) hnames]

/-- Counterexample to C5 as stated: with the network disconnect failing
after a successful creation, the self-update propagates the error (so the
claim's premise holds) yet a replacement container with the fresh id is
left in the engine state afterwards. -/
theorem selfUpdate_reconnect_leaves_replacement_cex :
    ((selfUpdateContainer oracleDiscFail wdState wdInfo wdCJ wdImgCfg
        "watchducker:latest" "abcd1234").2.2
      = Except.error "create new container failed: network disconnect failed") ∧
    (((selfUpdateContainer oracleDiscFail wdState wdInfo wdCJ wdImgCfg
        "watchducker:latest" "abcd1234").1.map Ctr.id).contains "newid" = true) ∧
    ((wdState.map Ctr.id).contains "newid" = false) := by
  exact ⟨rfl, rfl, rfl⟩

/-- Witness for C5 (amended), applying the theorem with creation failing,
with the network disconnect failing, and with the network reconnect
failing. -/
theorem selfUpdate_rollback_amended_witness :
    (selfUpdateContainer oracleCreateFail wdState wdInfo wdCJ wdImgCfg
        "watchducker:latest" "abcd1234" =
      (wdState,
       [Ev.rename "oldid" ("wd" ++ "_" ++ "abcd1234"),
        Ev.create "wd" (GetCreateConfig wdCJ wdImgCfg "watchducker:latest")
          (wdCJ.Networks.take 1),
        Ev.rename "oldid" "wd"],
       Except.error "create new container failed: create container failed")) ∧
    ((selfUpdateContainer oracleDiscFail wdState wdInfo wdCJ wdImgCfg
        "watchducker:latest" "abcd1234").1 =
      { id := "newid", name := "wd", running := false } :: wdState ∧
     ∃ e, (selfUpdateContainer oracleDiscFail wdState wdInfo wdCJ wdImgCfg
        "watchducker:latest" "abcd1234").2.2 =
      Except.error ("create new container failed: " ++ e)) ∧
    ((selfUpdateContainer oracleConnFail wdState wdInfo wdCJ wdImgCfg
        "watchducker:latest" "abcd1234").1 =
      { id := "newid", name := "wd", running := false } :: wdState ∧
     ∃ e, (selfUpdateContainer oracleConnFail wdState wdInfo wdCJ wdImgCfg
        "watchducker:latest" "abcd1234").2.2 =
      Except.error ("create new container failed: " ++ e)) := by
  refine ⟨?_, ?_, ?_⟩
  · exact (selfUpdate_rollback_amended oracleCreateFail wdState wdInfo wdCJ wdImgCfg
      "watchducker:latest" "abcd1234" (fun _ _ => rfl)
      (by intro c hc hid; simp [wdState] at hc; simp [hc, wdInfo])).1 rfl
  · exact (selfUpdate_rollback_amended oracleDiscFail wdState wdInfo wdCJ wdImgCfg
      "watchducker:latest" "abcd1234" (fun _ _ => rfl)
      (by intro c hc hid; simp [wdState] at hc; simp [hc, wdInfo])).2 "bridge" [] rfl rfl rfl
      (Or.inl rfl) (by decide)
  · exact (selfUpdate_rollback_amended oracleConnFail wdState wdInfo wdCJ wdImgCfg
      "watchducker:latest" "abcd1234" (fun _ _ => rfl)
      (by intro c hc hid; simp [wdState] at hc; simp [hc, wdInfo])).2 "bridge" [] rfl rfl rfl
      (Or.inr ⟨"bridge", by decide, rfl⟩) (by decide)

/-- C7 (amended): with every engine call succeeding, the issued call
sequence is rename, create (attached to at most one of the required
networks), disconnect of that network, reconnect of all originally
required networks, and only then start, followed by the old container's
stop and remove; with host networking the disconnect/reconnect block is
skipped entirely. -/
theorem selfUpdate_protocol_order (o : SelfOracle) (st : DockerState)
    (info : ContainerInfo) (cj : ContainerJSON) (img : ContainerConfig)
    (newImage suffix : String)
    (hren : ∀ a b, o.renameOk a b = true)
    (hc : o.createOk = true) (hs : o.startOk = true)
    (hd : ∀ n, o.disconnectOk n = true) (hcon : ∀ n, o.connectOk n = true) :
    (networkModeIsHost cj.HostConfig.NetworkMode = false →
      (selfUpdateContainer o st info cj img newImage suffix).2.1 =
        [Ev.rename info.ID (info.Name ++ "_" ++ suffix),
         Ev.create info.Name (GetCreateConfig cj img newImage) (cj.Networks.take 1)]
        ++ (cj.Networks.take 1).map (fun n => Ev.netDisconnect n o.newId)
        ++ cj.Networks.map (fun n => Ev.netConnect n o.newId)
        ++ [Ev.start o.newId, Ev.stop info.ID, Ev.remove info.ID]) ∧
    (networkModeIsHost cj.HostConfig.NetworkMode = true →
      (selfUpdateContainer o st info cj img newImage suffix).2.1 =
        [Ev.rename info.ID (info.Name ++ "_" ++ suffix),
         Ev.create info.Name (GetCreateConfig cj img newImage) (cj.Networks.take 1),
         Ev.start o.newId, Ev.stop info.ID, Ev.remove info.ID]) := by
  constructor
  · intro hh
    simp only [selfUpdateContainer, doRename, hren, if_true]
    rw [selfCreateNewContainer_ok_nonhost o _ _ cj img newImage info.Name hc hh hd hcon]
    rcases hst : o.stopOk info.ID with _ | _ <;>
      rcases hrm : o.removeOk info.ID with _ | _ <;>
        simp [doStart, doStop, doRemove, hs, hst, hrm, List.map_take]
  · intro hh
    simp only [selfUpdateContainer, doRename, hren, if_true]
    rw [selfCreateNewContainer_ok_host o _ _ cj img newImage info.Name hc hh]
    rcases hst : o.stopOk info.ID with _ | _ <;>
      rcases hrm : o.removeOk info.ID with _ | _ <;>
        simp [doStart, doStop, doRemove, hs, hst, hrm]

/-- Witness for C7 (amended) on the concrete all-success run. -/
theorem selfUpdate_protocol_order_witness :
    (selfUpdateContainer oracleAllOk wdState wdInfo wdCJ wdImgCfg
        "watchducker:latest" "abcd1234").2.1 =
      [Ev.rename "oldid" ("wd" ++ "_" ++ "abcd1234"),
       Ev.create "wd" (GetCreateConfig wdCJ wdImgCfg "watchducker:latest")
         (wdCJ.Networks.take 1)]
      ++ (wdCJ.Networks.take 1).map (fun n => Ev.netDisconnect n "newid")
      ++ wdCJ.Networks.map (fun n => Ev.netConnect n "newid")
      ++ [Ev.start "newid", Ev.stop "oldid", Ev.remove "oldid"] :=
  (selfUpdate_protocol_order oracleAllOk wdState wdInfo wdCJ wdImgCfg
    "watchducker:latest" "abcd1234" (fun _ _ => rfl) rfl rfl (fun _ => rfl)
    (fun _ => rfl)).1 rfl

/-- Counterexample to C7 as stated: in the all-success run the start call
does occur, but a network disconnect call is issued strictly before it —
the code disconnects and reconnects between create and start, not after
the start as the claim orders the steps. -/
theorem selfUpdate_start_after_reconnect_cex :
    ((selfUpdateContainer oracleAllOk wdState wdInfo wdCJ wdImgCfg
        "watchducker:latest" "abcd1234").2.1.contains (Ev.start "newid") = true) ∧
    (((selfUpdateContainer oracleAllOk wdState wdInfo wdCJ wdImgCfg
        "watchducker:latest" "abcd1234").2.1.takeWhile
          (fun e => !(e == Ev.start "newid"))).contains
        (Ev.netDisconnect "bridge" "newid") = true) := by
  exact ⟨rfl, rfl⟩

/-- Witness for C3 on the spec's concrete scenario: local hash
sha256:aaa against post-pull hash sha256:bbb yields an update. -/
theorem CheckUpdate_updated_iff_witness :
    (CheckUpdate (fun _ => Except.ok "sha256:aaa") (fun _ => Except.ok "sha256:bbb")
      "nginx:latest").1.IsUpdated = true :=
  (CheckUpdate_updated_iff (fun _ => Except.ok "sha256:aaa")
    (fun _ => Except.ok "sha256:bbb") "nginx:latest").1.mpr
    ⟨"sha256:aaa", "sha256:bbb", rfl, rfl, by decide⟩
